import Mathlib

/-!
Verification of the HyTwin water-treatment simulators.

Shallow embedding of the plant-physics and safety-monitoring code of the
repository (the single-tank PLC simulator `plcexpsimulator.py`, the dosing
tank simulator `tanksim.py`, the safety fuzzer `overflow_fuzzer.py`, and the
STL monitor driver `samplemonitor.py`).  Physical quantities (floats in the
source) are modelled as rationals; fallible register reads are modelled as
`Option` values; fallible register writes as injected boolean outcomes.
-/

namespace HyTwin

/-! ## Single-tank simulator (`plcexpsimulator.py`) -/

/-- Source constant `PLCSim.TANK_CAPACITY = 50`. -/
def TANK_CAPACITY : ℚ := 50

/-- Source constant `PLCSim.FLOW_RATE = 2` (units per second). -/
def FLOW_RATE : ℚ := 2

/-- Source constant `PLCSim.DESIRED_DISTANCE = 10` (fixed as per ST program; same constant in
`SafetyFuzzer`). -/
def DESIRED_DISTANCE : ℚ := 10

/-- The mutable state of `PLCSim`: flow sensor, range sensor and pump coil. -/
structure PLCState where
  flow_sensor : ℚ
  range_sensor : ℚ
  pump_state : Bool
deriving Repr, DecidableEq

/-- Embedding of `PLCSim.simulate_physics(dt)`: flow sensor is 100 while the pump is on and
0 otherwise; the range sensor decreases by `FLOW_RATE*dt` (clamped below at 0)
while the pump is on and leaks up by `0.1*dt` (clamped above at capacity)
otherwise; a final safety clamp keeps it in `[0, TANK_CAPACITY]`. -/
def simulate_physics (s : PLCState) (dt : ℚ) : PLCState :=
  let flow : ℚ := if s.pump_state then 100 else 0
  let r1 : ℚ :=
    if s.pump_state then
      max 0 (s.range_sensor - FLOW_RATE * dt)
    else
      min TANK_CAPACITY (s.range_sensor + (1/10) * dt)
  let r2 : ℚ := max 0 (min r1 TANK_CAPACITY)
  { flow_sensor := flow, range_sensor := r2, pump_state := s.pump_state }

/-! ## Dosing tank simulator (`tanksim.py`) -/

/-- Source constant `TANK_VOLUME_ML = 900`. -/
def TANK_VOLUME_ML : ℚ := 900

/-- Source constant `DOSE_VOLUME_ML = 5`. -/
def DOSE_VOLUME_ML : ℚ := 5

/-- Source constant `fill_rate_mlph = 45000` (mL per hour). -/
def fill_rate_mlph : ℚ := 45000

/-- The mutable state threaded through `tanksim.py`'s main loop. -/
structure TankState where
  water_volume_ml : ℚ
  red_ml : ℚ
  blue_ml : ℚ
  red_concentration : ℚ
  blue_concentration : ℚ
  dosing_complete : Bool
  settling_timer : Bool
  filling_stage : ℕ
  step : ℕ
deriving Repr, DecidableEq

/-- One trace line / register write set emitted by a successful tanksim tick
(the `client.write_registers` calls plus the fields of the trace row). -/
structure TankTickOutput where
  red_RGB_write : ℤ
  blue_RGB_write : ℤ
  range_sensor_write : ℤ
  water_volume_ml : ℚ
  red_concentration : ℚ
  blue_concentration : ℚ
  pump_state : Bool
  red_dose : Bool
  blue_dose : Bool
  range_sensor : ℚ
  treatment_complete : Bool
  dosing_complete : Bool
  settling_timer : Bool
  filling_stage : ℕ
deriving Repr, DecidableEq

/-- Python's `int()` conversion on a real value: truncation toward zero. -/
def pyInt (q : ℚ) : ℤ := if 0 ≤ q then ⌊q⌋ else ⌈q⌉

/-- The tentative volume of a tanksim tick before overflow handling: prior
volume, plus the pump inflow `fill_rate_mlph / 3600`, plus `DOSE_VOLUME_ML`
for each active doser. -/
def tentativeVolume (v : ℚ) (pump red_dose blue_dose : Bool) : ℚ :=
  v + (if pump then fill_rate_mlph / 3600 else 0)
    + (if red_dose then DOSE_VOLUME_ML else 0)
    + (if blue_dose then DOSE_VOLUME_ML else 0)

/-- One iteration of `tanksim.py`'s main loop.  `pumpRead` is the result of
`client.read_coils(ACT['pump'])` (`none` meaning an error response),
`dosersRead` of the two-coil read of red/blue dosers, `tcRead` of
`treatment_complete`, `stageRead` of the stage holding register.  The pump
inflow is applied whenever the pump read succeeds with the coil on, before
the other three reads are checked; the dosing, overflow handling,
concentration update, register writes and trace row happen only when all
three of those reads succeed. -/
def tanksimTick (s : TankState) (pumpRead : Option Bool)
    (dosersRead : Option (Bool × Bool)) (tcRead : Option Bool)
    (stageRead : Option ℕ) : TankState × Option TankTickOutput :=
  let step1 := s.step + 1
  let range_sensor : ℚ := 100 * (1 - s.water_volume_ml / TANK_VOLUME_ML)
  let v1 : ℚ :=
    if pumpRead = some true then s.water_volume_ml + fill_rate_mlph / 3600
    else s.water_volume_ml
  match dosersRead, tcRead, stageRead with
  | some (red_dose, blue_dose), some treatment_complete, some stage =>
      let dosing_complete := !red_dose && !blue_dose
      let settling_timer := stage = 4
      let red1 : ℚ := s.red_ml + (if red_dose then DOSE_VOLUME_ML else 0)
      let blue1 : ℚ := s.blue_ml + (if blue_dose then DOSE_VOLUME_ML else 0)
      let v2 : ℚ := v1 + (if red_dose then DOSE_VOLUME_ML else 0)
        + (if blue_dose then DOSE_VOLUME_ML else 0)
      let red2 : ℚ :=
        if v2 > TANK_VOLUME_ML then
          red1 - (1/2) * (v2 - TANK_VOLUME_ML) * s.red_concentration
        else red1
      let blue2 : ℚ :=
        if v2 > TANK_VOLUME_ML then
          blue1 - (1/2) * (v2 - TANK_VOLUME_ML) * s.blue_concentration
        else blue1
      let v3 : ℚ := if v2 > TANK_VOLUME_ML then TANK_VOLUME_ML else v2
      let rc : ℚ := if v3 > 0 then red2 / v3 else s.red_concentration
      let bc : ℚ := if v3 > 0 then blue2 / v3 else s.blue_concentration
      let s' : TankState :=
        { water_volume_ml := v3, red_ml := red2, blue_ml := blue2,
          red_concentration := rc, blue_concentration := bc,
          dosing_complete := dosing_complete, settling_timer := settling_timer,
          filling_stage := stage, step := step1 }
      let out : TankTickOutput :=
        { red_RGB_write := pyInt (rc * 255), blue_RGB_write := pyInt (bc * 255),
          range_sensor_write := pyInt (range_sensor * 100),
          water_volume_ml := v3, red_concentration := rc,
          blue_concentration := bc, pump_state := pumpRead.getD false,
          red_dose := red_dose, blue_dose := blue_dose,
          range_sensor := range_sensor,
          treatment_complete := treatment_complete,
          dosing_complete := dosing_complete, settling_timer := settling_timer,
          filling_stage := stage }
      (s', some out)
  | _, _, _ =>
      ({ s with water_volume_ml := v1, step := step1 }, none)

/-! ## Register encoding (`overflow_fuzzer.write_range_sensor`,
`PLCSim.update_modbus_values`) -/

/-- The register encoding of a sensor value: `int(value * 100)` (scale by the
fixed factor 100, truncate to an integer register). -/
def encode (v : ℚ) : ℤ := pyInt (v * 100)

/-- Modelled from the spec: the controller-side decode of a `value×100`
register is not in the repository (it lives in the external ST program); per
the register map, a stored register value `r` denotes the sensor value
`r / 100`. -/
def decode (r : ℤ) : ℚ := (r : ℚ) / 100

/-! ## Safety fuzzer (`overflow_fuzzer.py`) -/

/-- The `SafetyViolation` dataclass.  The numeric interpolation of the
description string (two-decimal formatting) is presentation only and is kept
as the fixed message text. -/
structure SafetyViolation where
  timestamp : ℚ
  range_sensor : ℚ
  pump_state : Bool
  description : String
deriving Repr, DecidableEq

/-- The violation record built in `check_safety_violation`. -/
def mkViolation (t rs : ℚ) (p : Bool) : SafetyViolation :=
  { timestamp := t, range_sensor := rs, pump_state := p,
    description := "VIOLATION: Pump ON when range_sensor > DESIRED_DISTANCE" }

/-- Embedding of `SafetyFuzzer.check_safety_violation`: if `range_sensor >
DESIRED_DISTANCE and pump_state`, build a violation, log it (the first
component: the lines appended to the violations file by `log_violation`) and
return it; otherwise return `None` and log nothing. -/
def check_safety_violation (t rs : ℚ) (p : Bool) :
    List SafetyViolation × Option SafetyViolation :=
  if DESIRED_DISTANCE < rs ∧ p then
    ([mkViolation t rs p], some (mkViolation t rs p))
  else ([], none)

/-- Events recorded in the fuzzing trace file by `log_trace`. -/
inductive TraceEvent where
  | write
  | error
deriving Repr, DecidableEq

/-- One line of the fuzzing trace file: timestamp, event and the attempted
range-sensor value. -/
structure TraceEntry where
  time : ℚ
  event : TraceEvent
  range_sensor : ℚ
deriving Repr, DecidableEq

/-- The per-value inputs of one iteration of `test_sequence`'s inner loop:
the scenario value, whether the Modbus register write raises (`writeOk`),
the result of reading the pump coil (`none` = error response), and the wall
clock timestamp of the step. -/
structure FuzzTick where
  value : ℚ
  writeOk : Bool
  pumpRead : Option Bool
  time : ℚ
deriving Repr, DecidableEq

/-- Embedding of `SafetyFuzzer.write_range_sensor`: on success, write `encode value` to
the register, log a WRITE trace line and return `True`; on an exception, log
an ERROR trace line carrying the attempted value and return `False`. -/
def write_range_sensor (t : FuzzTick) : List TraceEntry × Bool :=
  if t.writeOk then ([⟨t.time, TraceEvent.write, t.value⟩], true)
  else ([⟨t.time, TraceEvent.error, t.value⟩], false)

/-- The observable outputs of a `test_sequence` run: the fuzzing trace
lines, the violations-file lines, and the list of violations returned. -/
structure FuzzState where
  trace : List TraceEntry
  vlog : List SafetyViolation
  violations : List SafetyViolation
deriving Repr, DecidableEq

/-- The body of `test_sequence`'s inner loop for one value: attempt the
register write; only if it succeeded, read the pump coil, and only if that
read succeeded, run `check_safety_violation` and append a returned violation
to the list. -/
def fuzzStep (acc : FuzzState) (t : FuzzTick) : FuzzState :=
  let w := write_range_sensor t
  let acc1 : FuzzState := { acc with trace := acc.trace ++ w.1 }
  if w.2 then
    match t.pumpRead with
    | some pump =>
        let c := check_safety_violation t.time t.value pump
        { acc1 with vlog := acc1.vlog ++ c.1,
                    violations := acc1.violations ++ c.2.toList }
    | none => acc1
  else acc1

/-- Embedding of `SafetyFuzzer.test_sequence` restricted to one scenario sequence: fold
the inner loop over the ticks, starting from empty logs. -/
def test_sequence (ticks : List FuzzTick) : FuzzState :=
  ticks.foldl fuzzStep ⟨[], [], []⟩

/-- Embedding of `SafetyFuzzer.run_campaign`: run `test_sequence` once per iteration and
extend the total violation list with each iteration's result; every
iteration executes (write failures are absorbed inside
`write_range_sensor`). -/
def run_campaign (iterations : List (List FuzzTick)) : List SafetyViolation :=
  iterations.foldl (fun total it => total ++ (test_sequence it).violations) []

/-- The violations-file lines `test_sequence` produces: one line per checked
sample (write succeeded, pump read succeeded) that satisfies the violation
predicate. -/
def expectedVlog (ticks : List FuzzTick) : List SafetyViolation :=
  (ticks.filter (fun t => t.writeOk && t.pumpRead.getD false
      && decide (DESIRED_DISTANCE < t.value))).map
    (fun t => mkViolation t.time t.value (t.pumpRead.getD false))

/-- The trace-file lines `test_sequence` produces: one WRITE or ERROR line
per tick. -/
def expectedTrace (ticks : List FuzzTick) : List TraceEntry :=
  ticks.map (fun t =>
    ⟨t.time, if t.writeOk then TraceEvent.write else TraceEvent.error, t.value⟩)

/-! ## STL monitor (`samplemonitor.py`) -/

/-- Embedding of `samplemonitor.monitor` after trace loading: if `spec.parse()` raises, the
program exits before any evaluation (a fatal configuration/spec error);
otherwise the spec is evaluated and a robustness value is produced. -/
def monitor (parseResult : Except String Unit) (robustness : ℚ) :
    Except String ℚ :=
  match parseResult with
  | Except.error e => Except.error e
  | Except.ok _ => Except.ok robustness

/-! ## Control loop runs (`PLCSim.run`, `tanksim` main loop) -/

/-- One iteration of `PLCSim.run` without the sleep: `read_plc_outputs`
(the pump coil is updated only when the read succeeds) followed by
`simulate_physics dt`. -/
def plcTick (s : PLCState) (pumpRead : Option Bool) (dt : ℚ) : PLCState :=
  let s1 : PLCState :=
    match pumpRead with
    | some b => { s with pump_state := b }
    | none => s
  simulate_physics s1 dt

/-- The sample sequence of a `PLCSim.run` execution: each cycle provides the
pump-coil read result and its `dt`, and emits the post-update state as a
sample. -/
def plcRun (s : PLCState) (ticks : List (Option Bool × ℚ)) : List PLCState :=
  (ticks.foldl (fun (acc : PLCState × List PLCState) i =>
      let s' := plcTick acc.1 i.1 i.2
      (s', acc.2 ++ [s'])) (s, [])).2

/-- The register read results feeding one tanksim tick. -/
structure TankTickInput where
  pumpRead : Option Bool
  dosersRead : Option (Bool × Bool)
  tcRead : Option Bool
  stageRead : Option ℕ
deriving Repr, DecidableEq

/-- The per-tick outputs of a run of `tanksim.py`'s main loop (`none` for
ticks whose reads failed and emitted no trace row). -/
def tanksimRun (s : TankState) (ticks : List TankTickInput) :
    List (Option TankTickOutput) :=
  (ticks.foldl (fun (acc : TankState × List (Option TankTickOutput)) i =>
      let r := tanksimTick acc.1 i.pumpRead i.dosersRead i.tcRead i.stageRead
      (r.1, acc.2 ++ [r.2])) (s, [])).2

/-- The cycle-end sleep of `PLCSim.run`: sleep `dt - elapsed` when the cycle
finished early, otherwise do not sleep at all. -/
def cycle_sleep (dt elapsed : ℚ) : ℚ :=
  if elapsed < dt then dt - elapsed else 0

/-- The observable schedule of a `PLCSim.run` execution: emitted samples, the
sleep performed at the end of each cycle, and how many physics updates ran. -/
structure CycleResult where
  samples : List PLCState
  sleeps : List ℚ
  updates : ℕ
deriving Repr, DecidableEq

/-- One full cycle of `PLCSim.run`: exactly one `plcTick` (read + physics +
sample), then the cycle-end sleep computed from this cycle's own elapsed
processing time. -/
def plcLoopStep (dt : ℚ) (acc : PLCState × CycleResult) (i : Option Bool × ℚ) :
    PLCState × CycleResult :=
  let s' := plcTick acc.1 i.1 dt
  (s', { samples := acc.2.samples ++ [s'],
         sleeps := acc.2.sleeps ++ [cycle_sleep dt i.2],
         updates := acc.2.updates + 1 })

/-- A `PLCSim.run` execution: fold the cycle over the pump reads and elapsed
processing times. -/
def plcLoopRun (dt : ℚ) (s : PLCState) (cycles : List (Option Bool × ℚ)) :
    CycleResult :=
  (cycles.foldl (plcLoopStep dt) (s, ⟨[], [], 0⟩)).2

/-! ## Theorems -/

/-- Claim C1: after the per-tick physics step of either variant, the stored
tank quantity lies in `[0, capacity]`: `simulate_physics` clamps the range
sensor to `[0, TANK_CAPACITY]` for every state and every `dt`, and a
successful `tanksimTick` keeps the water volume in `[0, TANK_VOLUME_ML]`
for every actuator input given a prior in-range volume. -/
theorem plant_update_clamps (s : PLCState) (dt : ℚ) (t : TankState)
    (pump red_dose blue_dose tc : Bool) (stage : ℕ)
    (hlo : 0 ≤ t.water_volume_ml) (hhi : t.water_volume_ml ≤ TANK_VOLUME_ML) :
    (0 ≤ (simulate_physics s dt).range_sensor ∧
      (simulate_physics s dt).range_sensor ≤ TANK_CAPACITY) ∧
    (0 ≤ (tanksimTick t (some pump) (some (red_dose, blue_dose)) (some tc)
        (some stage)).1.water_volume_ml ∧
      (tanksimTick t (some pump) (some (red_dose, blue_dose)) (some tc)
        (some stage)).1.water_volume_ml ≤ TANK_VOLUME_ML) := by
  constructor
  · constructor
    · simp only [simulate_physics]
      exact le_max_left 0 _
    · simp only [simulate_physics]
      refine max_le ?_ (min_le_right _ _)
      norm_num [TANK_CAPACITY]
  · have hfill : (0:ℚ) ≤ fill_rate_mlph / 3600 := by norm_num [fill_rate_mlph]
    have hdose : (0:ℚ) ≤ DOSE_VOLUME_ML := by norm_num [DOSE_VOLUME_ML]
    simp only [tanksimTick]
    constructor <;>
      (split_ifs <;>
        simp only [TANK_VOLUME_ML, fill_rate_mlph, DOSE_VOLUME_ML] at * <;>
        linarith)

/-- Witness for C1 at a concrete state. -/
theorem plant_update_clamps_witness :
    (0 ≤ (895 : ℚ) ∧ (895 : ℚ) ≤ TANK_VOLUME_ML) ∧
    ((0 ≤ (simulate_physics ⟨0, 30, true⟩ 1).range_sensor ∧
      (simulate_physics ⟨0, 30, true⟩ 1).range_sensor ≤ TANK_CAPACITY) ∧
    (0 ≤ (tanksimTick ⟨895, 0, 0, 0, 0, false, false, 0, 0⟩ (some true)
        (some (true, true)) (some false) (some 0)).1.water_volume_ml ∧
      (tanksimTick ⟨895, 0, 0, 0, 0, false, false, 0, 0⟩ (some true)
        (some (true, true)) (some false) (some 0)).1.water_volume_ml
        ≤ TANK_VOLUME_ML)) :=
  ⟨by norm_num [TANK_VOLUME_ML],
   plant_update_clamps ⟨0, 30, true⟩ 1 ⟨895, 0, 0, 0, 0, false, false, 0, 0⟩
     true true true false 0 (by norm_num) (by norm_num [TANK_VOLUME_ML])⟩

/-- Claim C2: on a dosing tick whose tentative total volume exceeds the
capacity, the overflow correction removes exactly `0.5 * overflow *
red_concentration` from the red mass and `0.5 * overflow *
blue_concentration` from the blue mass, where the overflow amount is
computed from the tentative (pre-cap) volume; afterwards the volume equals
the capacity exactly. -/
theorem overflow_conservation (s : TankState) (pump red_dose blue_dose tc : Bool)
    (stage : ℕ)
    (hover : tentativeVolume s.water_volume_ml pump red_dose blue_dose
      > TANK_VOLUME_ML) :
    (s.red_ml + (if red_dose then DOSE_VOLUME_ML else 0))
        - (tanksimTick s (some pump) (some (red_dose, blue_dose)) (some tc)
            (some stage)).1.red_ml
      = (1/2) * (tentativeVolume s.water_volume_ml pump red_dose blue_dose
          - TANK_VOLUME_ML) * s.red_concentration ∧
    (s.blue_ml + (if blue_dose then DOSE_VOLUME_ML else 0))
        - (tanksimTick s (some pump) (some (red_dose, blue_dose)) (some tc)
            (some stage)).1.blue_ml
      = (1/2) * (tentativeVolume s.water_volume_ml pump red_dose blue_dose
          - TANK_VOLUME_ML) * s.blue_concentration ∧
    (tanksimTick s (some pump) (some (red_dose, blue_dose)) (some tc)
        (some stage)).1.water_volume_ml = TANK_VOLUME_ML := by
  have hv2 : (if (some pump : Option Bool) = some true then
        s.water_volume_ml + fill_rate_mlph / 3600 else s.water_volume_ml)
      + (if red_dose then DOSE_VOLUME_ML else 0)
      + (if blue_dose then DOSE_VOLUME_ML else 0)
      = tentativeVolume s.water_volume_ml pump red_dose blue_dose := by
    simp only [tentativeVolume, Option.some.injEq]
    cases pump <;> simp
  simp only [tanksimTick]
  rw [hv2, if_pos hover, if_pos hover, if_pos hover]
  refine ⟨by ring, by ring, rfl⟩

/-- Witness for C2: a full tank with the pump and both dosers active. -/
theorem overflow_conservation_witness :
    (tentativeVolume (895 : ℚ) true true true > TANK_VOLUME_ML) ∧
    ((895 : ℚ) + (if true then DOSE_VOLUME_ML else 0)
        - (tanksimTick ⟨895, 895, 0, 1, 0, false, false, 0, 0⟩ (some true)
            (some (true, true)) (some false) (some 0)).1.red_ml
      = (1/2) * (tentativeVolume (895 : ℚ) true true true - TANK_VOLUME_ML) * 1 ∧
    (0 : ℚ) + (if true then DOSE_VOLUME_ML else 0)
        - (tanksimTick ⟨895, 895, 0, 1, 0, false, false, 0, 0⟩ (some true)
            (some (true, true)) (some false) (some 0)).1.blue_ml
      = (1/2) * (tentativeVolume (895 : ℚ) true true true - TANK_VOLUME_ML) * 0 ∧
    (tanksimTick ⟨895, 895, 0, 1, 0, false, false, 0, 0⟩ (some true)
        (some (true, true)) (some false) (some 0)).1.water_volume_ml
      = TANK_VOLUME_ML) :=
  ⟨by norm_num [tentativeVolume, TANK_VOLUME_ML, fill_rate_mlph, DOSE_VOLUME_ML],
   overflow_conservation ⟨895, 895, 0, 1, 0, false, false, 0, 0⟩ true true true
     false 0
     (by norm_num [tentativeVolume, TANK_VOLUME_ML, fill_rate_mlph,
       DOSE_VOLUME_ML])⟩

/-- Claim C3: a sample with `range_sensor = DESIRED_DISTANCE` never produces
a violation, whatever the pump state; a sample with `range_sensor =
DESIRED_DISTANCE + ε` for any `ε > 0` and the pump on does: the comparison
in `check_safety_violation` is strict. -/
theorem strict_boundary_check (t ε : ℚ) (p : Bool) (hε : 0 < ε) :
    (check_safety_violation t DESIRED_DISTANCE p).2 = none ∧
    (check_safety_violation t (DESIRED_DISTANCE + ε) true).2
      = some (mkViolation t (DESIRED_DISTANCE + ε) true) := by
  constructor
  · simp [check_safety_violation]
  · have h1 : DESIRED_DISTANCE < DESIRED_DISTANCE + ε := by linarith
    simp [check_safety_violation, h1]

/-- Witness for C3 at `ε = 1/2`. -/
theorem strict_boundary_check_witness :
    (0 : ℚ) < 1/2 ∧
    ((check_safety_violation 0 DESIRED_DISTANCE true).2 = none ∧
     (check_safety_violation 0 (DESIRED_DISTANCE + 1/2) true).2
       = some (mkViolation 0 (DESIRED_DISTANCE + 1/2) true)) :=
  ⟨by norm_num, strict_boundary_check 0 (1/2) true (by norm_num)⟩

/-- Claim C4: the scenario `[9, 10, 11, 12, 13]` with the pump on at every
step and `DESIRED_DISTANCE = 10` yields exactly three violations, one at
each of the steps with value 11, 12 and 13, and none at 9 or 10. -/
theorem boundary_sequence_violations :
    (test_sequence [⟨9, true, some true, 0⟩, ⟨10, true, some true, 1⟩,
        ⟨11, true, some true, 2⟩, ⟨12, true, some true, 3⟩,
        ⟨13, true, some true, 4⟩]).violations
      = [mkViolation 2 11 true, mkViolation 3 12 true, mkViolation 4 13 true] := by
  decide

/-- Claim C5: encoding a sensor value into an integer register by the fixed
×100 scale and decoding it back changes the value by at most 0.01 for any
value in the valid sensor range. -/
theorem register_roundtrip (v : ℚ) (h0 : 0 ≤ v) (_hr : v ≤ 100) :
    |decode (encode v) - v| ≤ 1/100 := by
  have hv : (0:ℚ) ≤ v * 100 := by positivity
  have he : encode v = ⌊v * 100⌋ := by simp [encode, pyInt, hv]
  have hf1 : ((⌊v * 100⌋ : ℤ) : ℚ) ≤ v * 100 := Int.floor_le _
  have hf2 : v * 100 - 1 < ((⌊v * 100⌋ : ℤ) : ℚ) := Int.sub_one_lt_floor _
  rw [he]
  simp only [decode]
  rw [abs_le]
  constructor <;> linarith

/-- Witness for C5 at `v = 12.34`. -/
theorem register_roundtrip_witness :
    (0 ≤ (617/50 : ℚ) ∧ (617/50 : ℚ) ≤ 100) ∧
    |decode (encode (617/50 : ℚ)) - 617/50| ≤ 1/100 :=
  ⟨⟨by norm_num, by norm_num⟩,
   register_roundtrip (617/50) (by norm_num) (by norm_num)⟩

/-- One step of the fuzzer loop appends exactly its own trace line and, when
the sample violates, exactly one violation-log line and one returned
violation. -/
theorem fuzzStep_eq (acc : FuzzState) (t : FuzzTick) :
    fuzzStep acc t =
      ⟨acc.trace ++ expectedTrace [t], acc.vlog ++ expectedVlog [t],
        acc.violations ++ expectedVlog [t]⟩ := by
  rcases t with ⟨v, w, pr, time⟩
  rcases acc with ⟨tr, vl, vi⟩
  cases w
  · simp [fuzzStep, write_range_sensor, expectedTrace, expectedVlog]
  · cases pr with
    | none => simp [fuzzStep, write_range_sensor, expectedTrace, expectedVlog]
    | some p =>
        by_cases hlt : DESIRED_DISTANCE < v <;>
          cases p <;>
            simp [fuzzStep, write_range_sensor, check_safety_violation,
              expectedTrace, expectedVlog, hlt]

/-- Running the fuzzer loop from any accumulated logs appends exactly the
expected trace lines and violation records. -/
theorem fuzzRun_eq (ticks : List FuzzTick) (acc : FuzzState) :
    ticks.foldl fuzzStep acc =
      ⟨acc.trace ++ expectedTrace ticks, acc.vlog ++ expectedVlog ticks,
        acc.violations ++ expectedVlog ticks⟩ := by
  induction ticks generalizing acc with
  | nil => simp [expectedTrace, expectedVlog]
  | cons t ts ih =>
      rw [List.foldl_cons, fuzzStep_eq, ih]
      by_cases hp : (t.writeOk && t.pumpRead.getD false
          && decide (DESIRED_DISTANCE < t.value)) = true <;>
        simp [expectedTrace, expectedVlog, List.filter_cons, hp]

/-- The observable result of `test_sequence` on any tick list. -/
theorem test_sequence_eq (ticks : List FuzzTick) :
    test_sequence ticks =
      ⟨expectedTrace ticks, expectedVlog ticks, expectedVlog ticks⟩ := by
  have h := fuzzRun_eq ticks ⟨[], [], []⟩
  simpa [test_sequence] using h

/-- Claim C6: every checked sample that violates the predicate produces
exactly one violation-log record, so consecutive violating samples produce
one record each, with no de-duplication or suppression, and the returned
violation list coincides with the log. -/
theorem violation_logged_once_per_sample (ticks : List FuzzTick) :
    (test_sequence ticks).vlog = expectedVlog ticks ∧
    (test_sequence ticks).violations = expectedVlog ticks := by
  rw [test_sequence_eq]; exact ⟨rfl, rfl⟩

/-- The campaign total is the concatenation of every iteration's violations:
every iteration executes. -/
theorem run_campaign_acc (its : List (List FuzzTick))
    (a : List SafetyViolation) :
    its.foldl (fun total it => total ++ (test_sequence it).violations) a
      = a ++ (its.map (fun it => (test_sequence it).violations)).flatten := by
  induction its generalizing a with
  | nil => simp
  | cons i is ih => simp [List.foldl_cons, ih]

/-- Claim C7: a failed register write is logged as an ERROR trace line
carrying its timestamp and attempted value, only that tick's safety check is
skipped (the violation log and list are unaffected by the failed tick while
every other tick contributes as usual), the campaign still aggregates every
iteration (a mid-run I/O failure never aborts it), and the monitor aborts
exactly on a spec parse error. -/
theorem write_failure_recovery (pre post : List FuzzTick) (v time rob : ℚ)
    (pr : Option Bool) (its : List (List FuzzTick)) (f : String) :
    (test_sequence (pre ++ ⟨v, false, pr, time⟩ :: post)).trace
      = (test_sequence pre).trace ++ ⟨time, TraceEvent.error, v⟩
          :: (test_sequence post).trace ∧
    (test_sequence (pre ++ ⟨v, false, pr, time⟩ :: post)).vlog
      = (test_sequence pre).vlog ++ (test_sequence post).vlog ∧
    (test_sequence (pre ++ ⟨v, false, pr, time⟩ :: post)).violations
      = (test_sequence pre).violations ++ (test_sequence post).violations ∧
    run_campaign its
      = (its.map (fun it => (test_sequence it).violations)).flatten ∧
    monitor (Except.error f) rob = Except.error f ∧
    monitor (Except.ok ()) rob = Except.ok rob := by
  refine ⟨?_, ?_, ?_, run_campaign_acc its [], rfl, rfl⟩ <;>
    simp [test_sequence_eq, expectedTrace, expectedVlog, List.filter_append]

/-- Claim C8: the plant models are deterministic: two runs from equal initial
states with equal per-tick read results and `dt` values produce identical
sample sequences, for both the single-tank and the dosing variant. -/
theorem plant_model_deterministic (s s' : PLCState)
    (i i' : List (Option Bool × ℚ)) (t t' : TankState)
    (j j' : List TankTickInput)
    (hs : s = s') (hi : i = i') (ht : t = t') (hj : j = j') :
    plcRun s i = plcRun s' i' ∧ tanksimRun t j = tanksimRun t' j' := by
  subst hs hi ht hj
  exact ⟨rfl, rfl⟩

/-- Witness for C8 at concrete runs. -/
theorem plant_model_deterministic_witness :
    plcRun ⟨0, 50, false⟩ [(some true, 1/10)]
        = plcRun ⟨0, 50, false⟩ [(some true, 1/10)] ∧
    tanksimRun ⟨0, 0, 0, 0, 0, false, false, 0, 0⟩
        [⟨some true, some (false, false), some false, some 0⟩]
      = tanksimRun ⟨0, 0, 0, 0, 0, false, false, 0, 0⟩
        [⟨some true, some (false, false), some false, some 0⟩] :=
  plant_model_deterministic ⟨0, 50, false⟩ ⟨0, 50, false⟩ _ _
    ⟨0, 0, 0, 0, 0, false, false, 0, 0⟩ ⟨0, 0, 0, 0, 0, false, false, 0, 0⟩
    _ _ rfl rfl rfl rfl

/-- The sleeps and update count of the control loop, from any accumulated
result: one sleep per cycle, computed from that cycle's own elapsed time,
and exactly one physics update per cycle. -/
theorem plcLoop_schedule (dt : ℚ) (cycles : List (Option Bool × ℚ))
    (a : PLCState × CycleResult) :
    (cycles.foldl (plcLoopStep dt) a).2.sleeps
        = a.2.sleeps ++ cycles.map (fun c => cycle_sleep dt c.2) ∧
    (cycles.foldl (plcLoopStep dt) a).2.updates
        = a.2.updates + cycles.length := by
  induction cycles generalizing a with
  | nil => simp
  | cons c cs ih =>
      rw [List.foldl_cons]
      obtain ⟨h1, h2⟩ := ih (plcLoopStep dt a c)
      constructor
      · rw [h1]; simp [plcLoopStep]
      · rw [h2]; simp [plcLoopStep]; omega

/-- Claim C9: each control-loop cycle sleeps exactly the remaining part of the
period (`max 0 (dt - elapsed)`), sleeps not at all when processing overruns
`dt`, and the loop performs exactly one physics update per cycle — no
catch-up deficit is carried across cycles and no skipped tick is
fast-forwarded. -/
theorem loop_no_catchup (dt : ℚ) (s : PLCState)
    (cycles : List (Option Bool × ℚ)) (e : ℚ) (he : dt ≤ e) :
    (plcLoopRun dt s cycles).sleeps
        = cycles.map (fun c => max 0 (dt - c.2)) ∧
    (plcLoopRun dt s cycles).updates = cycles.length ∧
    cycle_sleep dt e = 0 := by
  have hmax : ∀ x : ℚ, cycle_sleep dt x = max 0 (dt - x) := by
    intro x
    rcases lt_or_ge x dt with h | h
    · simp only [cycle_sleep, if_pos h]
      rw [max_eq_right (by linarith)]
    · simp only [cycle_sleep, if_neg (not_lt.mpr h)]
      rw [max_eq_left (by linarith)]
  obtain ⟨h1, h2⟩ := plcLoop_schedule dt cycles (s, ⟨[], [], 0⟩)
  refine ⟨?_, ?_, ?_⟩
  · rw [plcLoopRun, h1]; simp [hmax]
  · rw [plcLoopRun, h2]; simp
  · simp only [cycle_sleep, if_neg (not_lt.mpr he)]

/-- Witness for C9: a two-cycle run at `dt = 1/10` with one early and one
overrunning cycle. -/
theorem loop_no_catchup_witness :
    ((1/10 : ℚ) ≤ 1/5) ∧
    ((plcLoopRun (1/10) ⟨0, 50, false⟩ [(some true, 1/20), (none, 1/5)]).sleeps
        = [(some true, (1/20 : ℚ)), (none, 1/5)].map
            (fun c => max 0 (1/10 - c.2)) ∧
    (plcLoopRun (1/10) ⟨0, 50, false⟩ [(some true, 1/20), (none, 1/5)]).updates
        = [(some true, (1/20 : ℚ)), (none, 1/5)].length ∧
    cycle_sleep (1/10) (1/5) = 0) :=
  ⟨by norm_num,
   loop_no_catchup (1/10) ⟨0, 50, false⟩ [(some true, 1/20), (none, 1/5)]
     (1/5) (by norm_num)⟩

/-- Claim C10: on a tanksim tick where the pump read succeeds but reading the
doser coils, the treatment-complete coil or the stage register fails, the
pump inflow is still applied to the volume while dosing, overflow capping,
concentration recomputation, register writes and the trace row are all
skipped; such a tick can leave the stored volume strictly above the
capacity, as the full tank with the pump on shows. -/
theorem read_error_tick (s : TankState) (pump : Bool)
    (d : Option (Bool × Bool)) (tc : Option Bool) (st : Option ℕ)
    (herr : d = none ∨ tc = none ∨ st = none) :
    ((tanksimTick s (some pump) d tc st).1.water_volume_ml
        = s.water_volume_ml + (if pump then fill_rate_mlph / 3600 else 0) ∧
      (tanksimTick s (some pump) d tc st).1.red_ml = s.red_ml ∧
      (tanksimTick s (some pump) d tc st).1.blue_ml = s.blue_ml ∧
      (tanksimTick s (some pump) d tc st).1.red_concentration
        = s.red_concentration ∧
      (tanksimTick s (some pump) d tc st).1.blue_concentration
        = s.blue_concentration ∧
      (tanksimTick s (some pump) d tc st).2 = none) ∧
    (tanksimTick ⟨900, 0, 0, 0, 0, false, false, 0, 0⟩ (some true) none
        (some false) (some 0)).1.water_volume_ml > TANK_VOLUME_ML := by
  constructor
  · rcases herr with h | h | h <;> subst h
    · cases pump <;> simp [tanksimTick]
    · rcases d with _ | ⟨a, b⟩ <;> rcases st with _ | st0 <;> cases pump <;>
        simp [tanksimTick]
    · rcases d with _ | ⟨a, b⟩ <;> rcases tc with _ | tc0 <;> cases pump <;>
        simp [tanksimTick]
  · norm_num [tanksimTick, TANK_VOLUME_ML, fill_rate_mlph]

/-- Witness for C10: a failed doser read with the pump off. -/
theorem read_error_tick_witness :
    ((none : Option (Bool × Bool)) = none ∨ (some true : Option Bool) = none ∨
      (some 1 : Option ℕ) = none) ∧
    (((tanksimTick ⟨100, 2, 3, 1/50, 3/100, false, false, 0, 0⟩ (some false)
          none (some true) (some 1)).1.water_volume_ml
        = (100 : ℚ) + (if false then fill_rate_mlph / 3600 else 0) ∧
      (tanksimTick ⟨100, 2, 3, 1/50, 3/100, false, false, 0, 0⟩ (some false)
          none (some true) (some 1)).1.red_ml = 2 ∧
      (tanksimTick ⟨100, 2, 3, 1/50, 3/100, false, false, 0, 0⟩ (some false)
          none (some true) (some 1)).1.blue_ml = 3 ∧
      (tanksimTick ⟨100, 2, 3, 1/50, 3/100, false, false, 0, 0⟩ (some false)
          none (some true) (some 1)).1.red_concentration = 1/50 ∧
      (tanksimTick ⟨100, 2, 3, 1/50, 3/100, false, false, 0, 0⟩ (some false)
          none (some true) (some 1)).1.blue_concentration = 3/100 ∧
      (tanksimTick ⟨100, 2, 3, 1/50, 3/100, false, false, 0, 0⟩ (some false)
          none (some true) (some 1)).2 = none) ∧
    (tanksimTick ⟨900, 0, 0, 0, 0, false, false, 0, 0⟩ (some true) none
        (some false) (some 0)).1.water_volume_ml > TANK_VOLUME_ML) :=
  ⟨Or.inl rfl,
   read_error_tick ⟨100, 2, 3, 1/50, 3/100, false, false, 0, 0⟩ false none
     (some true) (some 1) (Or.inl rfl)⟩

end HyTwin
